/-
  Verification of the TorWeather2022 weatherapp sources.

  Shallow embedding of:
    - weatherapp/ctlutil.py : class CtlUil and its four boolean queries
      is_up, is_exit, is_stable, is_hibernating;
    - weatherapp/models.py  : helper functions insert_fingerprint_spaces and
      get_rand_string, and the field declarations of the Router, Subscriber
      and Subscription models.

  The Stem controller connection is modelled as an oracle: for each
  fingerprint it either yields a network-status entry / server descriptor or
  fails with stem.ControllerError (all of the control-library query failures,
  SocketError and DescriptorUnavailable included, are subclasses of
  stem.ControllerError). Each embedded method records, next to its Python
  result, the log messages it emits and the queries it sends to the control
  connection, so that logging and query-count claims can be stated.
-/
import Mathlib

namespace TorWeather

/-! ## Python-level error values

Only the exception kinds that the embedded code can actually raise are
modelled: AttributeError (lookup of a method name the class does not define)
and TypeError (bytes.endswith applied to a str argument in Python 3). -/

inductive PyError where
  | attributeError
  | typeError
  deriving DecidableEq, Repr

/-! ## Model of the Stem control connection (ctlutil.py) -/

/-- Router flags as they appear in a consensus network-status entry
(stem.Flag). Only membership of Stable is inspected by the code; a few other
flags are included so that flag lists are not degenerate. -/
inductive Flag where
  | Stable
  | Exit
  | Fast
  | Guard
  | Running
  | Valid
  deriving DecidableEq, Repr

/-- A consensus network-status entry, as returned by
Controller.get_network_status: the code only reads its flags. -/
structure NetworkStatus where
  flags : List Flag
  deriving DecidableEq, Repr

/-- An exit policy attached to a server descriptor; the code only calls
can_exit_to(port = 80), so the policy is modelled as its decision function
on ports. -/
structure ExitPolicy where
  can_exit_to : Nat → Bool

/-- A relay server descriptor, as returned by
Controller.get_server_descriptor: the code reads exit_policy and
hibernating. -/
structure ServerDescriptor where
  exit_policy : ExitPolicy
  hibernating : Bool

/-- The state of the Stem controller connection, as an oracle from
fingerprints to responses. `none` means the query raises
stem.ControllerError (the relay is unknown, the document is unavailable, or
the connection failed). -/
structure Controller where
  network_status : String → Option NetworkStatus
  server_descriptor : String → Option ServerDescriptor

/-- A query sent over the control connection by one of the CtlUil methods. -/
inductive ControlQuery where
  | getNetworkStatus (fingerprint : String)
  | getServerDescriptor (fingerprint : String)
  deriving DecidableEq, Repr

/-- Result of calling one of the embedded Python methods: the value returned
(or the exception raised), together with the log messages emitted via
logging.error and the queries sent to the control connection during the
call. -/
structure PyResult (α : Type) where
  result : Except PyError α
  log : List String
  queries : List ControlQuery

/-- The class CtlUil in ctlutil.py defines no method or attribute named
get_single_consensus, and it has no base class, so evaluating
self.get_single_consensus(fingerprint) inside is_up raises AttributeError
before anything is sent over the control connection. -/
def get_single_consensus (_ctl : Controller) (_fingerprint : String) :
    PyResult String :=
  { result := .error .attributeError, log := [], queries := [] }

/-- CtlUil.is_up: calls self.get_single_consensus(fingerprint) and compares
the result with the empty string. There is no try/except in the body. -/
def is_up (ctl : Controller) (fingerprint : String) : PyResult Bool :=
  let call := get_single_consensus ctl fingerprint
  match call.result with
  | .error e => { result := .error e, log := call.log, queries := call.queries }
  | .ok cons =>
      if cons = "" then
        { result := .ok false, log := call.log, queries := call.queries }
      else
        { result := .ok true, log := call.log, queries := call.queries }

/-- CtlUil.is_exit: gets the server descriptor and asks its exit policy
about port 80; on stem.ControllerError it logs
"Unable to get server descriptor for \x27fingerprint\x27" and returns
False. -/
def is_exit (ctl : Controller) (fingerprint : String) : PyResult Bool :=
  match ctl.server_descriptor fingerprint with
  | some desc =>
      { result := .ok (desc.exit_policy.can_exit_to 80),
        log := [],
        queries := [.getServerDescriptor fingerprint] }
  | none =>
      { result := .ok false,
        log := ["Unable to get server descriptor for \x27" ++ fingerprint ++ "\x27"],
        queries := [.getServerDescriptor fingerprint] }

/-- CtlUil.is_stable: gets the network-status entry and tests whether
Flag.Stable is among its flags; on stem.ControllerError it logs
"Unable to get router status entry for \x27fingerprint\x27" and returns
False. -/
def is_stable (ctl : Controller) (fingerprint : String) : PyResult Bool :=
  match ctl.network_status fingerprint with
  | some desc =>
      { result := .ok (desc.flags.contains Flag.Stable),
        log := [],
        queries := [.getNetworkStatus fingerprint] }
  | none =>
      { result := .ok false,
        log := ["Unable to get router status entry for \x27" ++ fingerprint ++ "\x27"],
        queries := [.getNetworkStatus fingerprint] }

/-- CtlUil.is_hibernating: gets the server descriptor and returns its
hibernating field; on stem.ControllerError it returns False. Its except
branch contains no logging call. -/
def is_hibernating (ctl : Controller) (fingerprint : String) : PyResult Bool :=
  match ctl.server_descriptor fingerprint with
  | some desc =>
      { result := .ok desc.hibernating,
        log := [],
        queries := [.getServerDescriptor fingerprint] }
  | none =>
      { result := .ok false,
        log := [],
        queries := [.getServerDescriptor fingerprint] }

/-- Two controller states answer a given query identically. Used to state
that a method result depends only on the response to the queries it sent. -/
def respondsEqually (ctl ctlB : Controller) : ControlQuery → Prop
  | .getNetworkStatus fp => ctl.network_status fp = ctlB.network_status fp
  | .getServerDescriptor fp => ctl.server_descriptor fp = ctlB.server_descriptor fp

/-- A controller with no entry for any fingerprint: every query raises
stem.ControllerError. Models querying a non-existent relay. -/
def emptyController : Controller :=
  { network_status := fun _ => none, server_descriptor := fun _ => none }

/-! ## Helper functions of models.py -/

/-- The scan of re.findall with the pattern ".{4}" over a list of
characters: at each position a match succeeds exactly when the next four
characters exist and none of them is a newline (in Python, "." matches any
character except a newline); after a successful match scanning resumes
after the match, after a failure it resumes one character further. -/
def findallDot4 : List Char → List (List Char)
  | c1 :: c2 :: c3 :: c4 :: rest =>
      if c1 = '\n' || c2 = '\n' || c3 = '\n' || c4 = '\n' then
        findallDot4 (c2 :: c3 :: c4 :: rest)
      else
        [c1, c2, c3, c4] :: findallDot4 rest
  | _ => []

/-- Python " ".join(blocks): the blocks concatenated with a single space
between consecutive blocks. -/
def joinWithSpace : List (List Char) → List Char
  | [] => []
  | [b] => b
  | b :: bs => b ++ ' ' :: joinWithSpace bs

/-- models.insert_fingerprint_spaces:
the Python body is a space-join of re.findall(".{4}", str(fingerprint));
str() applied to a str argument is the identity. -/
def insert_fingerprint_spaces (fingerprint : String) : String :=
  ⟨joinWithSpace (findallDot4 fingerprint.data)⟩

/-- The urlsafe base64 alphabet: the standard alphabet with "-" and "_" in
place of "+" and "/". -/
def B64_URLSAFE_ALPHABET : List Char :=
  "ABCDEFGHIJKLMNOPQRSTUVWXYZabcdefghijklmnopqrstuvwxyz0123456789-_".data

/-- Character of the urlsafe base64 alphabet at index n (n < 64 whenever it
comes from an encoder group). -/
def b64char (n : Nat) : Char :=
  B64_URLSAFE_ALPHABET.getD n 'A'

/-- base64.urlsafe_b64encode on a byte string (bytes as naturals below
256): each group of three bytes becomes four alphabet characters; a
trailing group of two or one bytes is padded with "=". -/
def urlsafe_b64encode : List Nat → List Char
  | b1 :: b2 :: b3 :: rest =>
      b64char (b1 / 4) :: b64char (b1 % 4 * 16 + b2 / 16) ::
      b64char (b2 % 16 * 4 + b3 / 64) :: b64char (b3 % 64) ::
      urlsafe_b64encode rest
  | [b1, b2] =>
      [b64char (b1 / 4), b64char (b1 % 4 * 16 + b2 / 16), b64char (b2 % 16 * 4), '=']
  | [b1] =>
      [b64char (b1 / 4), b64char (b1 % 4 * 16), '=', '=']
  | [] => []

/-- In Python 3, os.urandom returns bytes and base64.urlsafe_b64encode maps
bytes to bytes, so r is bytes inside get_rand_string; calling
bytes.endswith with a str argument ("-") raises
TypeError: endswith first arg must be bytes or a tuple of bytes, not str,
whatever the receiver holds. -/
def bytes_endswith_str (_bytes : List Char) (_suffix : String) :
    Except PyError Bool :=
  .error .typeError

/-- models.get_rand_string, applied to the 18 random bytes drawn by
os.urandom(18): encodes them with base64.urlsafe_b64encode, then tests
r.endswith("-") and, if that test were true, would replace every "-" by "x"
(str.replace replaces all occurrences). -/
def get_rand_string (randomBytes : List Nat) : Except PyError (List Char) :=
  let r := urlsafe_b64encode randomBytes
  match bytes_endswith_str r "-" with
  | .error e => .error e
  | .ok true => .ok (r.map fun c => if c = '-' then 'x' else c)
  | .ok false => .ok r

/-! ## Field declarations of the Django models (models.py)

Persisted records are modelled at the column level: every column is NOT
NULL (the fields declare no null=True), so fields declared with
default=None are Option-typed and must be non-null in a stored row, while
fields with a usable default always carry a value. CharField and EmailField
columns bound the stored string by their max_length. Datetimes are modelled
as timestamps. -/

/-- A stored character column with the given max_length: the value must be
non-null and no longer than the declared bound. -/
def charColumn (max_length : Nat) (value : Option String) : Bool :=
  match value with
  | some s => s.length ≤ max_length
  | none => false

/-- A stored NOT NULL reference (foreign key) column. -/
def notNull {α : Type} (value : Option α) : Bool :=
  value.isSome

def _FINGERPRINT_MAX_LEN : Nat := 40
def _NAME_MAX_LEN : Nat := 100
def _EMAIL_MAX_LEN : Nat := 75
def _AUTH_MAX_LEN : Nat := 25

/-- A row of the Router table: fingerprint is declared with
default=None, blank=False (hence Option-typed); name defaults to
"Unnamed"; last_seen, welcomed, up and exit carry defaults. -/
structure Router where
  fingerprint : Option String
  name : String
  last_seen : Nat
  welcomed : Bool
  up : Bool
  exit : Bool

/-- The column constraints declared by the Router model:
CharField(max_length=40, default=None, blank=False) for fingerprint and
CharField(max_length=100) for name; the boolean and datetime columns
declare no further constraint. -/
def Router.rowOk (r : Router) : Bool :=
  charColumn _FINGERPRINT_MAX_LEN r.fingerprint &&
  charColumn _NAME_MAX_LEN (some r.name)

/-- Router.spaced_fingerprint applied to a stored fingerprint value. -/
def Router.spaced_fingerprint (r : Router) : Option String :=
  r.fingerprint.map insert_fingerprint_spaces

/-- A row of the Subscriber table: email and the router foreign key are
declared with default=None, blank=False (hence Option-typed; the router
reference is modelled by the key of the referenced row); confirmed, the
three auth codes and sub_date carry defaults. -/
structure Subscriber where
  email : Option String
  router : Option Nat
  confirmed : Bool
  confirm_auth : String
  unsubs_auth : String
  pref_auth : String
  sub_date : Nat

/-- The column constraints declared by the Subscriber model:
EmailField(max_length=75, default=None, blank=False), a NOT NULL foreign
key to Router, and CharField(max_length=25) for each of the three auth
codes. -/
def Subscriber.rowOk (s : Subscriber) : Bool :=
  charColumn _EMAIL_MAX_LEN s.email &&
  notNull s.router &&
  charColumn _AUTH_MAX_LEN (some s.confirm_auth) &&
  charColumn _AUTH_MAX_LEN (some s.unsubs_auth) &&
  charColumn _AUTH_MAX_LEN (some s.pref_auth)

/-- A row of the abstract Subscription model: the subscriber foreign key is
declared with default=None, blank=False; emailed carries a default. -/
structure Subscription where
  subscriber : Option Nat
  emailed : Bool

/-- The column constraints declared by the Subscription model: a NOT NULL
foreign key to Subscriber. -/
def Subscription.rowOk (s : Subscription) : Bool :=
  notNull s.subscriber

/-! ## Spec-side definitions (the wording of the claims, for comparison) -/

/-- Spec wording: a list of characters split into consecutive four-character
blocks, a trailing block of fewer than four characters being discarded. -/
def chunks4 : List Char → List (List Char)
  | c1 :: c2 :: c3 :: c4 :: rest => [c1, c2, c3, c4] :: chunks4 rest
  | _ => []

/-- Spec wording for insert_fingerprint_spaces: the first
4 * (len s / 4) characters of s split into consecutive four-character
blocks joined by single spaces. -/
def claimSpaced (s : String) : String :=
  ⟨joinWithSpace (chunks4 (s.data.take (4 * (s.data.length / 4))))⟩

/-- Removing every space character from a string. -/
def removeSpaces (s : String) : String :=
  ⟨s.data.filter (fun c => c ≠ ' ')⟩

/-! ## Helper lemmas -/

/-- On a list without newlines, the scan of re.findall(".{4}") matches at
every position and so produces exactly the consecutive four-character
blocks. -/
theorem findallDot4_eq_chunks4 (l : List Char) (h : ∀ c ∈ l, c ≠ '\n') :
    findallDot4 l = chunks4 l := by
  induction l using findallDot4.induct with
  | case1 c1 c2 c3 c4 rest hnl ih =>
      simp only [Bool.or_eq_true, decide_eq_true_eq] at hnl
      have h1 := h c1 (by simp)
      have h2 := h c2 (by simp)
      have h3 := h c3 (by simp)
      have h4 := h c4 (by simp)
      tauto
  | case2 c1 c2 c3 c4 rest hnl ih =>
      simp only [findallDot4, chunks4]
      rw [if_neg hnl]
      simp only [List.cons.injEq, true_and]
      exact ih fun c hc => h c (by simp [hc])
  | case3 l hl =>
      cases l with
      | nil => rfl
      | cons a t => cases t with
        | nil => rfl
        | cons b t2 => cases t2 with
          | nil => rfl
          | cons c t3 => cases t3 with
            | nil => rfl
            | cons d t4 => exact (hl a b c d t4 rfl).elim

/-- Chunking ignores the trailing partial block: chunking the first
4 * (len / 4) characters is chunking the whole list. -/
theorem chunks4_take (l : List Char) :
    chunks4 (l.take (4 * (l.length / 4))) = chunks4 l := by
  induction l using chunks4.induct with
  | case1 c1 c2 c3 c4 rest ih =>
      have hdiv : 4 * ((c1 :: c2 :: c3 :: c4 :: rest).length / 4)
          = 4 * (rest.length / 4) + 4 := by
        simp only [List.length_cons]
        omega
      rw [hdiv]
      have htake : List.take (4 * (rest.length / 4) + 4) (c1 :: c2 :: c3 :: c4 :: rest)
          = c1 :: c2 :: c3 :: c4 :: List.take (4 * (rest.length / 4)) rest := rfl
      rw [htake]
      simp only [chunks4, List.cons.injEq, true_and]
      exact ih
  | case2 l hl =>
      cases l with
      | nil => rfl
      | cons a t => cases t with
        | nil => simp [chunks4]
        | cons b t2 => cases t2 with
          | nil => simp [chunks4]
          | cons c t3 => cases t3 with
            | nil => simp [chunks4]
            | cons d t4 => exact (hl a b c d t4 rfl).elim

/-- Concatenating the four-character blocks gives back the first
4 * (len / 4) characters. -/
theorem chunks4_flatten (l : List Char) :
    (chunks4 l).flatten = l.take (4 * (l.length / 4)) := by
  induction l using chunks4.induct with
  | case1 c1 c2 c3 c4 rest ih =>
      have hdiv : 4 * ((c1 :: c2 :: c3 :: c4 :: rest).length / 4)
          = 4 * (rest.length / 4) + 4 := by
        simp only [List.length_cons]
        omega
      rw [hdiv]
      have htake : List.take (4 * (rest.length / 4) + 4) (c1 :: c2 :: c3 :: c4 :: rest)
          = c1 :: c2 :: c3 :: c4 :: List.take (4 * (rest.length / 4)) rest := rfl
      rw [htake]
      simp only [chunks4, List.flatten_cons]
      rw [ih]
      rfl
  | case2 l hl =>
      cases l with
      | nil => rfl
      | cons a t => cases t with
        | nil => simp [chunks4]
        | cons b t2 => cases t2 with
          | nil => simp [chunks4]
          | cons c t3 => cases t3 with
            | nil => simp [chunks4]
            | cons d t4 => exact (hl a b c d t4 rfl).elim

/-- Every character of a four-character block comes from the chunked
list. -/
theorem chunks4_chars (l : List Char) (b : List Char) (hb : b ∈ chunks4 l) :
    ∀ c ∈ b, c ∈ l := by
  induction l using chunks4.induct with
  | case1 c1 c2 c3 c4 rest ih =>
      simp only [chunks4, List.mem_cons] at hb
      rcases hb with hb | hb
      · subst hb
        intro c hc
        simp only [List.mem_cons] at hc
        simp only [List.mem_cons]
        tauto
      · intro c hc
        have := ih hb c hc
        simp only [List.mem_cons]
        tauto
  | case2 l hl =>
      cases l with
      | nil => cases hb
      | cons a t => cases t with
        | nil => cases hb
        | cons b2 t2 => cases t2 with
          | nil => cases hb
          | cons c t3 => cases t3 with
            | nil => cases hb
            | cons d t4 => exact (hl a b2 c d t4 rfl).elim

/-- If no block contains a space, filtering the spaces out of the
space-join leaves exactly the concatenation of the blocks. -/
theorem joinWithSpace_filter (bs : List (List Char))
    (h : ∀ b ∈ bs, ∀ c ∈ b, c ≠ ' ') :
    (joinWithSpace bs).filter (fun c => c ≠ ' ') = bs.flatten := by
  induction bs using joinWithSpace.induct with
  | case1 => rfl
  | case2 b =>
      simp only [joinWithSpace, List.flatten_cons, List.flatten_nil, List.append_nil]
      exact List.filter_eq_self.mpr fun a ha => by
        simpa using h b (by simp) a ha
  | case3 b b2 bs ih =>
      simp only [joinWithSpace, List.flatten_cons]
      rw [List.filter_append]
      have hb : b.filter (fun c => c ≠ ' ') = b :=
        List.filter_eq_self.mpr fun a ha => by simpa using h b (by simp) a ha
      rw [hb]
      simp only [List.filter_cons]
      have hsp : (decide (¬(' ' = ' '))) = false := by decide
      rw [hsp]
      have hrest := ih fun bl hbl => h bl (by simp [hbl])
      rw [hrest]
      simp [List.flatten_cons]

/-- No character of the urlsafe base64 alphabet is '+' or '/'; the fallback
value of getD is 'A'. -/
theorem b64char_ne_plus_slash (n : Nat) : b64char n ≠ '+' ∧ b64char n ≠ '/' := by
  by_cases h : n < B64_URLSAFE_ALPHABET.length
  · have hmem : b64char n ∈ B64_URLSAFE_ALPHABET := by
      rw [b64char, List.getD_eq_getElem _ _ h]
      exact List.getElem_mem h
    constructor <;> intro he <;> rw [he] at hmem <;> revert hmem <;> decide
  · have hA : b64char n = 'A' := by
      rw [b64char, List.getD_eq_default _ _ (Nat.le_of_not_lt h)]
    rw [hA]
    constructor <;> decide

/-- The base64 encoding of a byte string whose length is a multiple of
three has four characters per three bytes. -/
theorem urlsafe_b64encode_length (l : List Nat) (h : l.length % 3 = 0) :
    (urlsafe_b64encode l).length = l.length / 3 * 4 := by
  induction l using urlsafe_b64encode.induct with
  | case1 b1 b2 b3 rest ih =>
      have h3 : rest.length % 3 = 0 := by
        simp only [List.length_cons] at h
        omega
      simp only [urlsafe_b64encode, List.length_cons]
      rw [ih h3]
      omega
  | case2 => simp at h
  | case3 => simp at h
  | case4 => simp [urlsafe_b64encode]

/-- Every character of a urlsafe base64 encoding is an alphabet character
or '='; none of them is '+' or '/'. -/
theorem urlsafe_b64encode_chars (l : List Nat) :
    ∀ c ∈ urlsafe_b64encode l, c ≠ '+' ∧ c ≠ '/' := by
  induction l using urlsafe_b64encode.induct with
  | case1 b1 b2 b3 rest ih =>
      intro c hc
      simp only [urlsafe_b64encode, List.mem_cons] at hc
      rcases hc with h | h | h | h | h
      · exact h ▸ b64char_ne_plus_slash _
      · exact h ▸ b64char_ne_plus_slash _
      · exact h ▸ b64char_ne_plus_slash _
      · exact h ▸ b64char_ne_plus_slash _
      · exact ih c h
  | case2 =>
      intro c hc
      simp only [urlsafe_b64encode, List.mem_cons, List.not_mem_nil, or_false] at hc
      rcases hc with h | h | h | h <;>
        first
          | exact h ▸ b64char_ne_plus_slash _
          | exact h ▸ (by decide)
  | case3 =>
      intro c hc
      simp only [urlsafe_b64encode, List.mem_cons, List.not_mem_nil, or_false] at hc
      rcases hc with h | h | h | h <;>
        first
          | exact h ▸ b64char_ne_plus_slash _
          | exact h ▸ (by decide)
  | case4 =>
      intro c hc
      cases hc

/-! ## Claim theorems -/

/-- C1: for a fingerprint the control library has no entry for, is_exit,
is_stable and is_hibernating indeed return False, but is_up raises
AttributeError instead of returning False: its body calls the undefined
method get_single_consensus, contradicting its own docstring, which
promises True or False. -/
theorem c1_unknown_fingerprint_checks (ctl : Controller) (fp : String)
    (hns : ctl.network_status fp = none)
    (hsd : ctl.server_descriptor fp = none) :
    (is_up ctl fp).result = .error .attributeError ∧
    (is_exit ctl fp).result = .ok false ∧
    (is_stable ctl fp).result = .ok false ∧
    (is_hibernating ctl fp).result = .ok false := by
  refine ⟨rfl, ?_, ?_, ?_⟩ <;>
    simp [is_exit, is_stable, is_hibernating, hns, hsd]

/-- Witness for C1 at a concrete 40-character fingerprint on a controller
with no entries. -/
theorem c1_unknown_fingerprint_checks_witness :
    (is_up emptyController "AAAAAAAAAAAAAAAAAAAAAAAAAAAAAAAAAAAAAAAA").result
        = .error .attributeError ∧
    (is_exit emptyController "AAAAAAAAAAAAAAAAAAAAAAAAAAAAAAAAAAAAAAAA").result
        = .ok false ∧
    (is_stable emptyController "AAAAAAAAAAAAAAAAAAAAAAAAAAAAAAAAAAAAAAAA").result
        = .ok false ∧
    (is_hibernating emptyController "AAAAAAAAAAAAAAAAAAAAAAAAAAAAAAAAAAAAAAAA").result
        = .ok false :=
  c1_unknown_fingerprint_checks emptyController
    "AAAAAAAAAAAAAAAAAAAAAAAAAAAAAAAAAAAAAAAA" rfl rfl

/-- C2 as stated is false: when the control connection fails inside
is_hibernating, the error is converted to False but no log message
accompanies it (the except branch of is_hibernating contains no logging
call). -/
theorem c2_is_hibernating_logs_nothing :
    (is_hibernating emptyController "ABCD").result = .ok false ∧
    (is_hibernating emptyController "ABCD").log = [] :=
  ⟨rfl, rfl⟩

/-- C2 amended: a ControllerError raised by the control connection inside
is_exit or is_stable is caught and converted to False with exactly one log
message; inside is_hibernating it is caught and converted to False with no
log message; and is_up sends no query to the control connection at all (it
raises AttributeError first), so no control-connection error can arise or
propagate there. -/
theorem c2_error_conversion_amended (ctl : Controller) (fp : String)
    (hns : ctl.network_status fp = none)
    (hsd : ctl.server_descriptor fp = none) :
    ((is_exit ctl fp).result = .ok false ∧ (is_exit ctl fp).log.length = 1) ∧
    ((is_stable ctl fp).result = .ok false ∧ (is_stable ctl fp).log.length = 1) ∧
    ((is_hibernating ctl fp).result = .ok false ∧ (is_hibernating ctl fp).log = []) ∧
    ((is_up ctl fp).result = .error .attributeError ∧ (is_up ctl fp).queries = []) := by
  refine ⟨⟨?_, ?_⟩, ⟨?_, ?_⟩, ⟨?_, ?_⟩, rfl, rfl⟩ <;>
    simp [is_exit, is_stable, is_hibernating, hns, hsd]

/-- Witness for the amended C2 on a controller with no entries. -/
theorem c2_error_conversion_amended_witness :
    ((is_exit emptyController "B").result = .ok false ∧
      (is_exit emptyController "B").log.length = 1) ∧
    ((is_stable emptyController "B").result = .ok false ∧
      (is_stable emptyController "B").log.length = 1) ∧
    ((is_hibernating emptyController "B").result = .ok false ∧
      (is_hibernating emptyController "B").log = []) ∧
    ((is_up emptyController "B").result = .error .attributeError ∧
      (is_up emptyController "B").queries = []) :=
  c2_error_conversion_amended emptyController "B" rfl rfl

/-- C3: is_up never returns a boolean at all: for every controller state
and fingerprint it raises AttributeError (the call
self.get_single_consensus refers to a method CtlUil does not define)
without sending any query, so it cannot return True when a consensus
document is received. The docstring of is_up and the commented-out original
body show the claimed behaviour is the intent. -/
theorem c3_is_up_raises_attribute_error (ctl : Controller) (fp : String) :
    (is_up ctl fp).result = .error .attributeError ∧
    (is_up ctl fp).queries = [] :=
  ⟨rfl, rfl⟩

/-- C4: is_stable returns True exactly when the network-status entry is
obtained and lists the Stable flag, and False exactly otherwise (entry
unobtainable or flag absent). -/
theorem c4_is_stable_iff_stable_flag (ctl : Controller) (fp : String) :
    ((is_stable ctl fp).result = .ok true ↔
      ∃ ns, ctl.network_status fp = some ns ∧ Flag.Stable ∈ ns.flags) ∧
    ((is_stable ctl fp).result = .ok false ↔
      ¬ ∃ ns, ctl.network_status fp = some ns ∧ Flag.Stable ∈ ns.flags) := by
  cases h : ctl.network_status fp with
  | none => simp [is_stable, h]
  | some ns => simp [is_stable, h, List.elem_iff]

/-- C5: is_exit returns True exactly when the server descriptor is
obtained and its exit policy permits exiting to port 80, and False exactly
otherwise. -/
theorem c5_is_exit_iff_exit_policy_port80 (ctl : Controller) (fp : String) :
    ((is_exit ctl fp).result = .ok true ↔
      ∃ desc, ctl.server_descriptor fp = some desc ∧
        desc.exit_policy.can_exit_to 80 = true) ∧
    ((is_exit ctl fp).result = .ok false ↔
      ¬ ∃ desc, ctl.server_descriptor fp = some desc ∧
        desc.exit_policy.can_exit_to 80 = true) := by
  cases h : ctl.server_descriptor fp with
  | none => simp [is_exit, h]
  | some desc => simp [is_exit, h]

/-- C6: is_hibernating returns the hibernating field of the server
descriptor when one is obtained, and False when the query fails. -/
theorem c6_is_hibernating_descriptor_field (ctl : Controller) (fp : String) :
    (is_hibernating ctl fp).result =
      .ok ((ctl.server_descriptor fp).elim false ServerDescriptor.hibernating) := by
  cases h : ctl.server_descriptor fp <;> simp [is_hibernating, h]

/-- C7: each of the four boolean queries sends at most one query to the
control library per invocation, and whenever two controller states answer
the queries about the given fingerprint identically, each method returns
the identical outcome: the result is a function of the response to the
single query alone, with no retry and no state stored across invocations
(the embedded methods return no mutated state, mirroring that the Python
methods assign no attributes). -/
theorem c7_single_query_determinism (ctl ctlB : Controller) (fp : String)
    (hsd : ctl.server_descriptor fp = ctlB.server_descriptor fp)
    (hns : ctl.network_status fp = ctlB.network_status fp) :
    ((is_up ctl fp).queries.length ≤ 1 ∧
     (is_exit ctl fp).queries.length ≤ 1 ∧
     (is_stable ctl fp).queries.length ≤ 1 ∧
     (is_hibernating ctl fp).queries.length ≤ 1) ∧
    (is_up ctl fp = is_up ctlB fp ∧
     is_exit ctl fp = is_exit ctlB fp ∧
     is_stable ctl fp = is_stable ctlB fp ∧
     is_hibernating ctl fp = is_hibernating ctlB fp) := by
  constructor
  · refine ⟨by simp [is_up, get_single_consensus], ?_, ?_, ?_⟩
    · cases h : ctl.server_descriptor fp <;> simp [is_exit, h]
    · cases h : ctl.network_status fp <;> simp [is_stable, h]
    · cases h : ctl.server_descriptor fp <;> simp [is_hibernating, h]
  · refine ⟨rfl, ?_, ?_, ?_⟩
    · unfold is_exit; rw [hsd]
    · unfold is_stable; rw [hns]
    · unfold is_hibernating; rw [hsd]

/-- Witness for C7 with the two controller states both empty. -/
theorem c7_single_query_determinism_witness :
    ((is_up emptyController "C").queries.length ≤ 1 ∧
     (is_exit emptyController "C").queries.length ≤ 1 ∧
     (is_stable emptyController "C").queries.length ≤ 1 ∧
     (is_hibernating emptyController "C").queries.length ≤ 1) ∧
    (is_up emptyController "C" = is_up emptyController "C" ∧
     is_exit emptyController "C" = is_exit emptyController "C" ∧
     is_stable emptyController "C" = is_stable emptyController "C" ∧
     is_hibernating emptyController "C" = is_hibernating emptyController "C") :=
  c7_single_query_determinism emptyController emptyController "C" rfl rfl

/-- C8: a stored row satisfies the declared column constraints exactly when
the fields listed by the claim are within bounds and the required
references are non-null: Router.fingerprint at most 40 characters,
Router.name at most 100, Subscriber.email at most 75, each auth code at
most 25, and fingerprint, email, router and subscriber non-null; nothing
further is constrained. -/
theorem c8_declared_field_constraints (r : Router) (s : Subscriber)
    (sub : Subscription) :
    (Router.rowOk r = true ↔
      (∃ fp, r.fingerprint = some fp ∧ fp.length ≤ 40) ∧ r.name.length ≤ 100) ∧
    (Subscriber.rowOk s = true ↔
      (∃ e, s.email = some e ∧ e.length ≤ 75) ∧ (∃ k, s.router = some k) ∧
      s.confirm_auth.length ≤ 25 ∧ s.unsubs_auth.length ≤ 25 ∧
      s.pref_auth.length ≤ 25) ∧
    (Subscription.rowOk sub = true ↔ ∃ k, sub.subscriber = some k) := by
  refine ⟨?_, ?_, ?_⟩
  · cases hf : r.fingerprint <;>
      simp [Router.rowOk, charColumn, hf, _FINGERPRINT_MAX_LEN, _NAME_MAX_LEN]
  · cases he : s.email <;> cases hr : s.router <;>
      simp [Subscriber.rowOk, charColumn, notNull, he, hr, _EMAIL_MAX_LEN,
        _AUTH_MAX_LEN, and_assoc]
  · cases hs : sub.subscriber <;>
      simp [Subscription.rowOk, notNull, hs]

/-- C9 as stated is false: on a string containing a newline the regex scan
of insert_fingerprint_spaces skips characters instead of taking consecutive
blocks, and on a string containing a space of its own, removing all spaces
from the result does not recover the string even though its length is a
multiple of four. -/
theorem c9_counterexample_newline_space :
    insert_fingerprint_spaces "abc\nefgh" ≠ claimSpaced "abc\nefgh" ∧
    "ab d".length % 4 = 0 ∧
    removeSpaces (insert_fingerprint_spaces "ab d") ≠ "ab d" := by
  decide

/-- C9 amended: for every string containing neither a newline nor a space
character (as a 40-character hexadecimal fingerprint is),
insert_fingerprint_spaces equals the first 4 * (len / 4) characters split
into consecutive four-character blocks joined by single spaces, and
removing the spaces from the result recovers the string exactly when its
length is a multiple of four. -/
theorem c9_fingerprint_spaces_amended (s : String)
    (hnl : '\n' ∉ s.data) (hsp : ' ' ∉ s.data) :
    insert_fingerprint_spaces s = claimSpaced s ∧
    (removeSpaces (insert_fingerprint_spaces s) = s ↔ s.length % 4 = 0) := by
  have hfd : findallDot4 s.data = chunks4 s.data :=
    findallDot4_eq_chunks4 s.data fun c hc hc2 => hnl (hc2 ▸ hc)
  have hnos : ∀ b ∈ chunks4 s.data, ∀ c ∈ b, c ≠ ' ' :=
    fun b hb c hc hc2 => hsp (hc2 ▸ chunks4_chars s.data b hb c hc)
  constructor
  · rw [insert_fingerprint_spaces, claimSpaced, hfd, chunks4_take]
  · rw [insert_fingerprint_spaces, removeSpaces, hfd]
    show (⟨(joinWithSpace (chunks4 s.data)).filter fun c => c ≠ ' '⟩ : String) = s
        ↔ s.length % 4 = 0
    rw [joinWithSpace_filter (chunks4 s.data) hnos, chunks4_flatten]
    constructor
    · intro he
      have hdata : s.data.take (4 * (s.data.length / 4)) = s.data :=
        congrArg String.data he
      have hle : s.data.length ≤ 4 * (s.data.length / 4) :=
        (List.take_eq_self_iff s.data).mp hdata
      show s.data.length % 4 = 0
      omega
    · intro hm
      have hm4 : s.data.length % 4 = 0 := hm
      have heq : 4 * (s.data.length / 4) = s.data.length := by omega
      rw [heq, List.take_length]

/-- Witness for the amended C9 at a concrete 12-character string. -/
theorem c9_fingerprint_spaces_amended_witness :
    insert_fingerprint_spaces "ABCD1234EFGH" = claimSpaced "ABCD1234EFGH" ∧
    (removeSpaces (insert_fingerprint_spaces "ABCD1234EFGH") = "ABCD1234EFGH" ↔
      "ABCD1234EFGH".length % 4 = 0) :=
  c9_fingerprint_spaces_amended "ABCD1234EFGH" (by decide) (by decide)

/-- C10: under Python 3 semantics get_rand_string never returns: r is a
bytes value and r.endswith applied to the str argument "-" raises
TypeError on every input, contradicting the docstring, which promises a
24-character url-safe string. The encoding it computes before failing does
have exactly 24 characters, none of which is '+' or '/'. -/
theorem c10_get_rand_string_typeerror (randomBytes : List Nat)
    (h : randomBytes.length = 18) :
    get_rand_string randomBytes = .error .typeError ∧
    (urlsafe_b64encode randomBytes).length = 24 ∧
    (urlsafe_b64encode randomBytes).all (fun c => c ≠ '+' && c ≠ '/') = true := by
  refine ⟨rfl, ?_, ?_⟩
  · rw [urlsafe_b64encode_length randomBytes (by omega)]
    omega
  · rw [List.all_eq_true]
    intro c hc
    have hcc := urlsafe_b64encode_chars randomBytes c hc
    simp [hcc.1, hcc.2]

/-- Witness for C10 at the all-zero 18-byte input. -/
theorem c10_get_rand_string_typeerror_witness :
    get_rand_string (List.replicate 18 0) = .error .typeError ∧
    (urlsafe_b64encode (List.replicate 18 0)).length = 24 ∧
    (urlsafe_b64encode (List.replicate 18 0)).all (fun c => c ≠ '+' && c ≠ '/')
      = true :=
  c10_get_rand_string_typeerror (List.replicate 18 0) (by simp)

end TorWeather
